import Mathlib

/-!
Verification development for the Aeterna DSL toolchain
(aeterna-node VM + compiler, lwas_core soul compiler, lwas_parser AST).

Modelling conventions:
* Rust `i64` values are carried as `Int`, but every arithmetic result the
  source computes on `i64` is mapped back into the i64 range: `+`, `-`,
  `*` and `iter().sum::<i64>()` wrap two's-complement (release-profile
  semantics; a debug build would panic on the first overflow instead —
  noted where it matters), and `/` panics on its one overflow case
  `i64::MIN / -1` (that check fires in release builds too), modelled by
  an explicit `panicked` outcome.
* Rust `usize` is modelled as `Nat`; `u8` as `Nat`.
* Rust `f64` payloads (frequencies, thresholds, powers, priorities) are
  modelled as `Rat`; the `as usize` cast (truncate toward zero, saturate
  below at 0) becomes `Rat.floor` followed by `Int.toNat`.
* The `Vec<i64>` operand stack is a `List Int` whose HEAD is the top of
  stack (`Vec::push`/`Vec::pop`/`Vec::last` act on that end).
* `tracing` log lines are not modelled, except for the observable
  `PRINT` output (`VM Output: {val}` / `VM Output: [Empty Stack]`),
  which is collected as a trace of `VMOutput` events.
* `teleport_vm_to_host` performs real I/O (serialization, fresh-key AEAD
  encryption, simulated network send); its outcome is therefore a
  parameter `tp : VMState → String → Except TeleportError Unit` of the
  step function, so theorems can quantify over every possible outcome.
-/

/-- `aeterna-node/src/vm/bytecode.rs`: the `AeternaOpcode` enum. -/
inductive AeternaOpcode where
  | LOAD (val : Int)
  | STORE (addr : Nat)
  | ADD
  | SUB
  | MUL
  | DIV
  | JUMP (addr : Nat)
  | JUMP_IF (addr : Nat)
  | SAVE_STATE
  | LOAD_STATE
  | REQUEST_HOST
  | ONTOLOGICAL_SHIFT (n : Nat)
  | RESONATE_MEMBRANE (n : Nat)
  | INVERT_ENTROPY (n : Nat)
  | VERIFY_TIMELINE (n : Nat)
  | PREDICT_NEED (n : Nat)
  | TUNE_CONSTANT (id : Nat) (v : Rat)
  | INVERT_LOGIC (n : Nat)
  | DEFINE_MATTER (s : String)
  | RECYCLE_CHRONO (dt : Rat)
  | FORK_INSTANCE (n : Nat)
  | PATCH_REALITY (n : Nat) (s : String)
  | ENTROPY_RESET
  | PRINT
  | HALT
deriving DecidableEq, Repr

/-- `aeterna-node/src/network/teleport.rs`: the `VMState` snapshot struct.
The `[u8; 32]` checksum is a list of 32 bytes. -/
structure VMState where
  memory_snapshot : List Int
  stack_snapshot : List Int
  program_counter : Nat
  checksum : List Nat
deriving DecidableEq, Repr

/-- `aeterna-node/src/network/teleport.rs`: the `TeleportError` enum. -/
inductive TeleportError where
  | EncryptionFailed (msg : String)
  | NetworkError (msg : String)
  | HostNotFound (msg : String)
  | SerializationError (msg : String)
deriving DecidableEq, Repr

/-- `aeterna-node/src/vm/interpreter.rs`: the `VirtualMachine` struct. -/
structure VirtualMachine where
  stack : List Int
  memory : List Int
  program : List AeternaOpcode
  pc : Nat
deriving DecidableEq, Repr

/-- `VirtualMachine::new`: empty stack, 1024 zeroed memory slots, pc 0. -/
def VirtualMachine.new (program : List AeternaOpcode) : VirtualMachine :=
  { stack := []
    memory := List.replicate 1024 0
    program := program
    pc := 0 }

/-- `VirtualMachine::capture_state`: clones of memory and stack, the current
program counter, and the placeholder all-zero checksum. -/
def capture_state (vm : VirtualMachine) : VMState :=
  { memory_snapshot := vm.memory
    stack_snapshot := vm.stack
    program_counter := vm.pc
    checksum := List.replicate 32 0 }

/-- Two's-complement wrap of an unbounded integer into the i64 range
`[-2^63, 2^63)`: the value Rust's wrapping i64 arithmetic (release
profile) produces. -/
def wrapI64 (n : Int) : Int := (n + 2 ^ 63) % 2 ^ 64 - 2 ^ 63

/-- `memory.iter().sum::<i64>()` in a release build: a left fold whose
every addition wraps to i64.  (A debug build would panic at the first
overflowing step instead; either way, slot 0 does not receive the
mathematical sum when the total leaves the i64 range.) -/
def wrappingSum (l : List Int) : Int :=
  l.foldl (fun acc x => wrapI64 (acc + x)) 0

/-- Insert `x` into an (ascending) sorted list, keeping it sorted. -/
def insertSorted (x : Int) : List Int → List Int
  | [] => [x]
  | y :: ys => if x ≤ y then x :: y :: ys else y :: insertSorted x ys

/-- Models `Vec::sort_unstable` (ascending) by insertion sort: for a total
order on `Int` both produce the unique sorted permutation, so the resulting
list is identical. -/
def sortMemory : List Int → List Int
  | [] => []
  | x :: xs => insertSorted x (sortMemory xs)

/-- `VirtualMachine::neutralize_entropy`: sort the memory in place
(`sort_unstable`), take the i64 sum of all cells
(`total_energy = self.memory.iter().sum::<i64>()`, which wraps — see
`wrappingSum`), zero-fill the whole array (`fill(0)`), and, when memory is
non-empty, write the total into slot 0. (The `calculate_entropy` calls
only feed log lines and are omitted.) -/
def neutralize_entropy (mem : List Int) : List Int :=
  let sorted := sortMemory mem
  let total := wrappingSum sorted
  let zeroed := List.replicate sorted.length (0 : Int)
  if zeroed.isEmpty then zeroed else zeroed.set 0 total

/-- Observable output of the `PRINT` instruction
(`info!("VM Output: {}", val)` / `warn!("VM Output: [Empty Stack]")`). -/
inductive VMOutput where
  | value (v : Int)
  | emptyStack
deriving DecidableEq, Repr

/-- Result of one iteration of the fetch-execute loop.  `panicked` models
a Rust panic aborting the process (the only such path is the division
overflow `i64::MIN / -1` in the `DIV` arm). -/
inductive StepOutcome where
  | next (vm : VirtualMachine) (out : List VMOutput)
  | halt (vm : VirtualMachine)
  | done
  | panicked
deriving DecidableEq, Repr

/-- Why `runFuel` stopped. -/
inductive StopReason where
  | halted
  | endOfProgram
  | outOfFuel
  | panicked
deriving DecidableEq, Repr

/-- The `match opcode` body of the `VirtualMachine::run` loop, applied to
the machine with `pc` already advanced past the fetched instruction.
`halt` models the `break` in the `HALT` arm.  The Rust `match` has no arms
for the futurist extension opcodes (`ONTOLOGICAL_SHIFT` …
`PATCH_REALITY`); per spec §4.3 those are no-ops against VM state beyond
logging, and are modelled as such. -/
def execInstr (tp : VMState → String → Except TeleportError Unit)
    (opcode : AeternaOpcode) (vm : VirtualMachine) : StepOutcome :=
  match opcode with
    | AeternaOpcode.LOAD val =>
        StepOutcome.next { vm with stack := val :: vm.stack } []
    | AeternaOpcode.STORE addr =>
        match vm.stack with
        | val :: rest =>
            if addr < vm.memory.length then
              StepOutcome.next { vm with stack := rest, memory := vm.memory.set addr val } []
            else
              -- error!("Memory access violation at {addr}"): value discarded
              StepOutcome.next { vm with stack := rest } []
        | [] =>
            -- error!("Stack underflow on STORE")
            StepOutcome.next vm []
    | AeternaOpcode.ADD =>
        let b := vm.stack.headD 0
        let a := vm.stack.tail.headD 0
        StepOutcome.next { vm with stack := wrapI64 (a + b) :: vm.stack.tail.tail } []
    | AeternaOpcode.SUB =>
        let b := vm.stack.headD 0
        let a := vm.stack.tail.headD 0
        StepOutcome.next { vm with stack := wrapI64 (a - b) :: vm.stack.tail.tail } []
    | AeternaOpcode.MUL =>
        let b := vm.stack.headD 0
        let a := vm.stack.tail.headD 0
        StepOutcome.next { vm with stack := wrapI64 (a * b) :: vm.stack.tail.tail } []
    | AeternaOpcode.DIV =>
        -- let b = self.stack.pop().unwrap_or(1)
        let b := vm.stack.headD 1
        let s1 := vm.stack.tail
        if b = 0 then
          -- error!("Division by zero"); the left operand is NOT popped
          StepOutcome.next { vm with stack := 0 :: s1 } []
        else
          let a := s1.headD 0
          if a = -(2 ^ 63) ∧ b = -1 then
            -- Rust i64 division overflow: 'attempt to divide with
            -- overflow' panics in every build profile
            StepOutcome.panicked
          else
            StepOutcome.next { vm with stack := Int.tdiv a b :: s1.tail } []
    | AeternaOpcode.JUMP addr =>
        StepOutcome.next { vm with pc := addr } []
    | AeternaOpcode.JUMP_IF addr =>
        match vm.stack with
        | val :: rest =>
            if val ≠ 0 then StepOutcome.next { vm with stack := rest, pc := addr } []
            else StepOutcome.next { vm with stack := rest } []
        | [] => StepOutcome.next vm []
    | AeternaOpcode.SAVE_STATE =>
        -- let state = self.capture_state(); the snapshot is only logged
        StepOutcome.next vm []
    | AeternaOpcode.LOAD_STATE =>
        -- warn!("Load state not implemented yet.")
        StepOutcome.next vm []
    | AeternaOpcode.REQUEST_HOST =>
        match tp (capture_state vm) "node-Alpha-Centauri-7" with
        | Except.ok _ => StepOutcome.next vm []    -- info!("Teleportation successful")
        | Except.error _ => StepOutcome.next vm [] -- error!("Teleportation failed")
    | AeternaOpcode.ENTROPY_RESET =>
        StepOutcome.next { vm with memory := neutralize_entropy vm.memory } []
    | AeternaOpcode.PRINT =>
        match vm.stack with
        | val :: _ => StepOutcome.next vm [VMOutput.value val]
        | [] => StepOutcome.next vm [VMOutput.emptyStack]
    | AeternaOpcode.HALT => StepOutcome.halt vm
    | AeternaOpcode.ONTOLOGICAL_SHIFT _ => StepOutcome.next vm []
    | AeternaOpcode.RESONATE_MEMBRANE _ => StepOutcome.next vm []
    | AeternaOpcode.INVERT_ENTROPY _ => StepOutcome.next vm []
    | AeternaOpcode.VERIFY_TIMELINE _ => StepOutcome.next vm []
    | AeternaOpcode.PREDICT_NEED _ => StepOutcome.next vm []
    | AeternaOpcode.TUNE_CONSTANT _ _ => StepOutcome.next vm []
    | AeternaOpcode.INVERT_LOGIC _ => StepOutcome.next vm []
    | AeternaOpcode.DEFINE_MATTER _ => StepOutcome.next vm []
    | AeternaOpcode.RECYCLE_CHRONO _ => StepOutcome.next vm []
    | AeternaOpcode.FORK_INSTANCE _ => StepOutcome.next vm []
    | AeternaOpcode.PATCH_REALITY _ _ => StepOutcome.next vm []

/-- One iteration of the `while self.pc < self.program.len()` loop of
`VirtualMachine::run`: fetch the opcode at `pc`, advance `pc` by 1, then
execute it with `execInstr`.  `done` models the loop guard failing. -/
def stepVM (tp : VMState → String → Except TeleportError Unit)
    (vm0 : VirtualMachine) : StepOutcome :=
  match vm0.program[vm0.pc]? with
  | none => StepOutcome.done
  | some opcode => execInstr tp opcode { vm0 with pc := vm0.pc + 1 }

/-- `VirtualMachine::run` as a fuel-indexed loop (the Rust loop has no step
budget and `JUMP` can build infinite loops, so the embedding makes fuel
explicit).  Returns the final machine, the concatenated `PRINT` output
trace, and why the loop stopped. -/
def runFuel (tp : VMState → String → Except TeleportError Unit) :
    Nat → VirtualMachine → VirtualMachine × List VMOutput × StopReason
  | 0, vm => (vm, [], StopReason.outOfFuel)
  | fuel + 1, vm =>
    match stepVM tp vm with
    | StepOutcome.done => (vm, [], StopReason.endOfProgram)
    | StepOutcome.halt vm1 => (vm1, [], StopReason.halted)
    | StepOutcome.panicked => (vm, [], StopReason.panicked)
    | StepOutcome.next vm1 out =>
      let r := runFuel tp fuel vm1
      (r.1, out ++ r.2.1, r.2.2)

/-- A teleport outcome that always succeeds (the source's
`teleport_vm_to_host` simulates a successful network send). -/
def teleportOk : VMState → String → Except TeleportError Unit :=
  fun _ _ => Except.ok ()

/-- A teleport outcome that always fails with a network error. -/
def teleportFail : VMState → String → Except TeleportError Unit :=
  fun _ _ => Except.error (TeleportError.NetworkError "unreachable")

namespace aeterna_node

/-- Tokenizer for `source.split_whitespace()`: splits on whitespace and
discards empty pieces.  `cur` accumulates the current token in reverse. -/
def splitWhitespaceAux : List Char → List Char → List String
  | [], [] => []
  | [], cur => [String.mk cur.reverse]
  | c :: cs, cur =>
    if c.isWhitespace then
      match cur with
      | [] => splitWhitespaceAux cs []
      | _ => String.mk cur.reverse :: splitWhitespaceAux cs []
    else splitWhitespaceAux cs (c :: cur)

/-- Models Rust `str::split_whitespace`. -/
def split_whitespace (s : String) : List String :=
  splitWhitespaceAux s.data []

/-- Digit-string accumulator for `str::parse`. -/
def parseNatAux : List Char → Nat → Option Nat
  | [], acc => some acc
  | c :: cs, acc =>
    if c.isDigit then parseNatAux cs (acc * 10 + (c.toNat - 48)) else none

/-- Models `tokens[i+1].parse::<usize>()`: digits with an optional leading
`+` sign (the 64-bit overflow bound is not modelled; all the literals the
claims exercise are small). -/
def parse_usize (s : String) : Option Nat :=
  match s.data with
  | [] => none
  | '+' :: rest => match rest with
    | [] => none
    | _ => parseNatAux rest 0
  | cs => parseNatAux cs 0

/-- Models `tokens[i+1].parse::<i64>()`: digits with an optional leading
`+` or `-` sign (the 64-bit overflow bound is not modelled). -/
def parse_i64 (s : String) : Option Int :=
  match s.data with
  | [] => none
  | '+' :: rest => match rest with
    | [] => none
    | _ => (parseNatAux rest 0).map fun n => (n : Int)
  | '-' :: rest => match rest with
    | [] => none
    | _ => (parseNatAux rest 0).map fun n => -(n : Int)
  | cs => (parseNatAux cs 0).map fun n => (n : Int)

/-- The token-consuming `while i < tokens.len()` loop of
`aeterna-node/src/compiler/mod.rs`'s `SoulCompiler::compile`, rewritten over
the list of remaining tokens (the Rust index `i` advances by 2 exactly when
an arm consumes its lookahead token, i.e. when the head of `rest` is used). -/
def compileLoop : List String → List AeternaOpcode
  | [] => []
  | [t] =>
    -- last token: the `i + 1 < tokens.len()` lookahead guards all fail
    if t = "TRANSCEND" then [AeternaOpcode.ADD]
    else if t = "ECHO" then [AeternaOpcode.PRINT]
    else []
  | t :: v :: rest2 =>
    if t = "BECOME" then
      -- "BECOME VOID" -> ENTROPY_RESET; other lookahead emits nothing
      if v = "VOID" then AeternaOpcode.ENTROPY_RESET :: compileLoop rest2
      else compileLoop (v :: rest2)
    else if t = "MANIFEST" then
      -- "MANIFEST <value>" -> LOAD <value>
      match parse_i64 v with
      | some val => AeternaOpcode.LOAD val :: compileLoop rest2
      | none => compileLoop (v :: rest2)
    else if t = "TRANSCEND" then
      AeternaOpcode.ADD :: compileLoop (v :: rest2)
    else if t = "ECHO" then
      AeternaOpcode.PRINT :: compileLoop (v :: rest2)
    else if t = "ANCHOR" then
      -- "ANCHOR <addr>" -> STORE <addr>
      match parse_usize v with
      | some addr => AeternaOpcode.STORE addr :: compileLoop rest2
      | none => compileLoop (v :: rest2)
    else compileLoop (v :: rest2)

/-- `aeterna-node/src/compiler/mod.rs`: `SoulCompiler::compile`.  Tokenizes
the source, runs the token loop, then unconditionally pushes `HALT`. -/
def SoulCompiler.compile (source : String) : List AeternaOpcode :=
  compileLoop (split_whitespace source) ++ [AeternaOpcode.HALT]

end aeterna_node

namespace lwas_core

/-- `lwas_parser/src/parser.rs`: the `EntrenchValue` enum (`f32` payloads
modelled as `Rat`). -/
inductive EntrenchValue where
  | Vector (v : List Rat)
  | Str (s : String)
  | Number (x : Rat)
deriving DecidableEq, Repr

/-- `lwas_parser/src/parser.rs`: the `AstNode` enum (`f64` payloads modelled
as `Rat`).  `AxiomDecl` mirrors the source variant `Axiom`. -/
inductive AstNode where
  | Immortal (name value : String)
  | Body (name content : String)
  | Spirit (name goal : String)
  | Manifold (name : String) (body : List AstNode)
  | Resonate (target : String) (frequency : Rat)
  | Collapse (target : String) (entropy_threshold : Rat)
  | Entrench (key : String) (value : EntrenchValue)
  | Magnet (label : String) (power : Rat)
  | Department (name : String) (priority : Rat)
  | Reflect
  | AxiomDecl (name expression : String)
  | Causality (cause effect c_type : String)

/-- Rust's `expr as usize` cast on an `f64` (truncate toward zero, saturate
below at 0), on the `Rat` model: for a non-negative rational this is the
floor; for a negative one both truncation-then-saturation and
floor-then-`toNat` give 0. -/
def ratToUsize (q : Rat) : Nat := q.floor.toNat

/-- Byte length of a string, modelling Rust `String::len`. -/
def strLen (s : String) : Nat := s.utf8ByteSize

mutual

/-- `lwas_core/src/omega/soul_compiler.rs`: `SoulCompiler::compile`.
Runs the per-node loop, then — per the source's final check
`if !bytecode.is_empty() && !matches!(bytecode.last(), Some(HALT))` —
appends `HALT`.  Note the check runs in EVERY invocation, including the
recursive one made for a `Manifold` body. -/
def compile (nodes : List AstNode) : List AeternaOpcode :=
  let bytecode := compileNodes nodes
  if bytecode.isEmpty then bytecode
  else if bytecode.getLast? = some AeternaOpcode.HALT then bytecode
  else bytecode ++ [AeternaOpcode.HALT]

/-- The `for node in nodes` loop body of `SoulCompiler::compile`, emitting
the opcodes for each node in source order. -/
def compileNodes : List AstNode → List AeternaOpcode
  | [] => []
  | AstNode.Manifold _name body :: rest =>
      -- LOAD(body.len() as i64 * 1000); STORE(0); extend(Self::compile(body))
      AeternaOpcode.LOAD ((body.length : Int) * 1000) ::
      AeternaOpcode.STORE 0 ::
      (compile body ++ compileNodes rest)
  | AstNode.Resonate _target frequency :: rest =>
      AeternaOpcode.RESONATE_MEMBRANE (ratToUsize frequency) :: compileNodes rest
  | AstNode.Collapse _target entropy_threshold :: rest =>
      AeternaOpcode.INVERT_ENTROPY (ratToUsize (entropy_threshold * 100)) :: compileNodes rest
  | AstNode.Entrench _key _value :: rest =>
      AeternaOpcode.VERIFY_TIMELINE 0x4121 :: compileNodes rest
  | AstNode.Immortal _name value :: rest =>
      AeternaOpcode.LOAD (strLen value : Int) :: compileNodes rest
  | AstNode.Body _name content :: rest =>
      AeternaOpcode.DEFINE_MATTER content :: compileNodes rest
  | AstNode.Spirit name _goal :: rest =>
      AeternaOpcode.PREDICT_NEED (strLen name) :: compileNodes rest
  | AstNode.Magnet _label power :: rest =>
      AeternaOpcode.ONTOLOGICAL_SHIFT (ratToUsize power) :: compileNodes rest
  | AstNode.Department _name priority :: rest =>
      AeternaOpcode.FORK_INSTANCE (ratToUsize priority) :: compileNodes rest
  | AstNode.Reflect :: rest =>
      AeternaOpcode.ENTROPY_RESET :: compileNodes rest
  | AstNode.AxiomDecl name _expression :: rest =>
      AeternaOpcode.INVERT_LOGIC (strLen name) :: compileNodes rest
  | AstNode.Causality cause effect _c_type :: rest =>
      AeternaOpcode.PATCH_REALITY 0 (cause ++ "_to_" ++ effect) :: compileNodes rest

end

end lwas_core

/-! ### Lemmas about the entropy-reset transform -/

theorem insertSorted_sum (x : Int) (l : List Int) :
    (insertSorted x l).sum = x + l.sum := by
  induction l with
  | nil => simp [insertSorted]
  | cons y ys ih =>
    by_cases h : x ≤ y
    · simp [insertSorted, h]
    · simp [insertSorted, h, ih]; ring

theorem sortMemory_sum (l : List Int) : (sortMemory l).sum = l.sum := by
  induction l with
  | nil => rfl
  | cons x xs ih => simp [sortMemory, insertSorted_sum, ih]

theorem insertSorted_length (x : Int) (l : List Int) :
    (insertSorted x l).length = l.length + 1 := by
  induction l with
  | nil => rfl
  | cons y ys ih =>
    by_cases h : x ≤ y
    · simp [insertSorted, h]
    · simp [insertSorted, h, ih]

theorem sortMemory_length (l : List Int) : (sortMemory l).length = l.length := by
  induction l with
  | nil => rfl
  | cons x xs ih => simp [sortMemory, insertSorted_length, ih]

theorem sum_replicate_zero (n : Nat) : (List.replicate n (0 : Int)).sum = 0 := by
  induction n with
  | zero => rfl
  | succ m ih => simp [List.replicate_succ, ih]

theorem getD_replicate_zero (n i : Nat) :
    (List.replicate n (0 : Int)).getD i 0 = 0 := by
  induction n generalizing i with
  | zero => simp [List.getD]
  | succ m ih => cases i <;> simp [List.replicate_succ, ih]

theorem wrapI64_eq_self (n : Int) (h1 : -(2 ^ 63) ≤ n) (h2 : n < 2 ^ 63) :
    wrapI64 n = n := by
  unfold wrapI64
  omega

theorem wrapI64_add_wrap_left (a b : Int) :
    wrapI64 (wrapI64 a + b) = wrapI64 (a + b) := by
  unfold wrapI64
  omega

theorem wrapI64_zero : wrapI64 0 = 0 := by
  unfold wrapI64
  omega

/-- Folding the wrapping addition from a wrapped start is the wrap of the
unbounded total: intermediate wraps never change the final i64 result. -/
theorem wrappingSum_go (l : List Int) (a : Int) :
    l.foldl (fun acc x => wrapI64 (acc + x)) (wrapI64 a) = wrapI64 (a + l.sum) := by
  induction l generalizing a with
  | nil => simp
  | cons x xs ih =>
    simp only [List.foldl_cons, List.sum_cons]
    rw [wrapI64_add_wrap_left, ih (a + x)]
    congr 1
    ring

theorem wrappingSum_eq (l : List Int) : wrappingSum l = wrapI64 l.sum := by
  unfold wrappingSum
  rw [show (0 : Int) = wrapI64 0 from wrapI64_zero.symm, wrappingSum_go, zero_add]

/-- Closed form of `neutralize_entropy`: the sort does not change the sum or
the length, so the result is a zero array of the same length with the
i64-wrapped total in slot 0 (empty memory stays empty). -/
theorem neutralize_entropy_eq (mem : List Int) :
    neutralize_entropy mem =
      if mem.length = 0 then []
      else (List.replicate mem.length (0 : Int)).set 0 (wrapI64 mem.sum) := by
  cases mem with
  | nil => rfl
  | cons x xs =>
    simp only [neutralize_entropy, sortMemory_length, wrappingSum_eq, sortMemory_sum]
    simp [List.replicate_succ]

theorem neutralize_entropy_length (mem : List Int) :
    (neutralize_entropy mem).length = mem.length := by
  rw [neutralize_entropy_eq]
  cases mem <;> simp

/-- Claim C2 (counterexample): the source sums memory with
`iter().sum::<i64>()`, so for the reachable memory `[2^62, 2^62]` — whose
true total `2^63` leaves the i64 range — slot 0 receives the wrapped value
`-2^63`, not the pre-instruction sum, and the total is not preserved. -/
theorem claim2_counterexample :
    (neutralize_entropy [2 ^ 62, 2 ^ 62]).getD 0 0 ≠ ([2 ^ 62, 2 ^ 62] : List Int).sum ∧
    (neutralize_entropy [2 ^ 62, 2 ^ 62]).sum ≠ ([2 ^ 62, 2 ^ 62] : List Int).sum ∧
    (neutralize_entropy [2 ^ 62, 2 ^ 62]).getD 0 0 = -(2 ^ 63) := by
  decide

/-- Claim C2 (amended): whenever the arithmetic sum of the memory cells
fits in the i64 range, `ENTROPY_RESET` (`neutralize_entropy`) preserves
the sum of all memory cells, writes that pre-instruction sum into cell 0,
and zeroes every other cell (the length is also unchanged).  When the
total leaves the i64 range, cell 0 instead receives the two's-complement
wrapped total (release profile; a debug build panics on the overflow). -/
theorem claim2_theorem (mem : List Int)
    (hlo : -(2 ^ 63) ≤ mem.sum) (hhi : mem.sum < 2 ^ 63) :
    (neutralize_entropy mem).sum = mem.sum ∧
    (neutralize_entropy mem).length = mem.length ∧
    ∀ i, i < mem.length →
      (neutralize_entropy mem).getD i 0 = if i = 0 then mem.sum else 0 := by
  rw [neutralize_entropy_eq, wrapI64_eq_self mem.sum hlo hhi]
  cases mem with
  | nil => simp
  | cons x xs =>
    refine ⟨?_, by simp, ?_⟩
    · simp [List.replicate_succ, sum_replicate_zero]
    · intro i hi
      cases i with
      | zero => simp [List.replicate_succ]
      | succ j => simp [List.replicate_succ, getD_replicate_zero]

/-- Witness for C2 at the concrete memory `[5, 7, 9]` (total 21, well
inside i64) and cell index 1. -/
theorem claim2_witness :
    (-(2 ^ 63) ≤ ([5, 7, 9] : List Int).sum ∧ ([5, 7, 9] : List Int).sum < 2 ^ 63) ∧
    (1 < ([5, 7, 9] : List Int).length ∧
      (neutralize_entropy [5, 7, 9]).getD 1 0 =
        if 1 = 0 then ([5, 7, 9] : List Int).sum else 0) ∧
    (neutralize_entropy [5, 7, 9]).sum = ([5, 7, 9] : List Int).sum :=
  ⟨⟨by decide, by decide⟩,
   ⟨by decide, (claim2_theorem [5, 7, 9] (by decide) (by decide)).2.2 1 (by decide)⟩,
   (claim2_theorem [5, 7, 9] (by decide) (by decide)).1⟩

/-- Claim C8: `capture_state` builds the snapshot from the VM's current
memory, stack and program counter, with the placeholder all-zero 32-byte
checksum; it takes the machine immutably (Rust `&self`), so the live VM's
stack, memory, program and program counter are untouched. -/
theorem claim8_theorem (vm : VirtualMachine) :
    (capture_state vm).memory_snapshot = vm.memory ∧
    (capture_state vm).stack_snapshot = vm.stack ∧
    (capture_state vm).program_counter = vm.pc ∧
    (capture_state vm).checksum = List.replicate 32 0 :=
  ⟨rfl, rfl, rfl, rfl⟩

/-- Claim C4 (counterexample): compiling the empty AST node list with the
lwas_core `SoulCompiler::compile` does NOT yield `[HALT]` — the final push
is guarded by `!bytecode.is_empty()`, so the result is `[]`. -/
theorem claim4_counterexample :
    lwas_core.compile [] ≠ [AeternaOpcode.HALT] := by
  simp [lwas_core.compile, lwas_core.compileNodes]

/-- Claim C4 (amended): compiling the empty AST node list yields the empty
instruction sequence (`HALT` is appended only to a non-empty output); the
aeterna-node string compiler, whose `HALT` push is unconditional, does
return `[HALT]` on empty source. -/
theorem claim4_theorem :
    lwas_core.compile [] = [] ∧
    aeterna_node.SoulCompiler.compile "" = [AeternaOpcode.HALT] :=
  ⟨by simp [lwas_core.compile, lwas_core.compileNodes], rfl⟩

/-- Claim C3 (code evaluated at the failing input): the recursive
(sub-manifold) invocation of `lwas_core`'s `SoulCompiler::compile` runs the
same terminal `HALT` check as the top level, so compiling
`[Manifold "M" [Reflect], Reflect]` puts a `HALT` in the middle of the
stream (index 3) — the claim (and the source comment "Only add HALT if
we're at top level") predict
`[LOAD 1000, STORE 0, ENTROPY_RESET, ENTROPY_RESET, HALT]` instead. -/
theorem claim3_theorem :
    lwas_core.compile
        [lwas_core.AstNode.Manifold "M" [lwas_core.AstNode.Reflect],
         lwas_core.AstNode.Reflect] =
      [AeternaOpcode.LOAD 1000, AeternaOpcode.STORE 0,
       AeternaOpcode.ENTROPY_RESET, AeternaOpcode.HALT,
       AeternaOpcode.ENTROPY_RESET, AeternaOpcode.HALT] := by
  simp [lwas_core.compile, lwas_core.compileNodes]

/-! ### Lemmas about the fetch-execute step -/

theorem stepVM_fetch_none (tp : VMState → String → Except TeleportError Unit)
    (vm : VirtualMachine) (h : vm.program[vm.pc]? = none) :
    stepVM tp vm = StepOutcome.done := by
  simp [stepVM, h]

theorem stepVM_fetch_some (tp : VMState → String → Except TeleportError Unit)
    (vm : VirtualMachine) (op : AeternaOpcode) (h : vm.program[vm.pc]? = some op) :
    stepVM tp vm = execInstr tp op { vm with pc := vm.pc + 1 } := by
  simp [stepVM, h]

theorem execInstr_tp_irrel (tp tp' : VMState → String → Except TeleportError Unit)
    (op : AeternaOpcode) (vm : VirtualMachine) :
    execInstr tp op vm = execInstr tp' op vm := by
  cases op <;> try rfl
  case REQUEST_HOST =>
    simp only [execInstr]
    cases tp (capture_state vm) "node-Alpha-Centauri-7" <;>
      cases tp' (capture_state vm) "node-Alpha-Centauri-7" <;> rfl

theorem stepVM_tp_irrel (tp tp' : VMState → String → Except TeleportError Unit)
    (vm : VirtualMachine) : stepVM tp vm = stepVM tp' vm := by
  unfold stepVM
  cases vm.program[vm.pc]? with
  | none => rfl
  | some op => exact execInstr_tp_irrel tp tp' op _

theorem runFuel_tp_irrel (tp tp' : VMState → String → Except TeleportError Unit)
    (fuel : Nat) (vm : VirtualMachine) :
    runFuel tp fuel vm = runFuel tp' fuel vm := by
  induction fuel generalizing vm with
  | zero => rfl
  | succ n ih =>
    simp only [runFuel]
    rw [stepVM_tp_irrel tp tp' vm]
    cases stepVM tp' vm with
    | next vm1 out => simp only; rw [ih vm1]
    | halt vm1 => rfl
    | done => rfl
    | panicked => rfl

theorem execInstr_halt_iff (tp : VMState → String → Except TeleportError Unit)
    (op : AeternaOpcode) (vm : VirtualMachine) :
    (∃ vm', execInstr tp op vm = StepOutcome.halt vm') ↔ op = AeternaOpcode.HALT := by
  constructor
  · rintro ⟨vm', h⟩
    cases op <;> simp only [execInstr] at h <;>
      first
        | rfl
        | (cases h)
        | (split at h <;> (try split at h) <;> cases h)
  · rintro rfl
    exact ⟨vm, rfl⟩

/-- Every non-`HALT` instruction either continues execution or — only on
the `DIV` overflow path — aborts with a panic. -/
theorem execInstr_next_or_panic (tp : VMState → String → Except TeleportError Unit)
    (op : AeternaOpcode) (vm : VirtualMachine) (hne : op ≠ AeternaOpcode.HALT) :
    (∃ vm' out, execInstr tp op vm = StepOutcome.next vm' out) ∨
      execInstr tp op vm = StepOutcome.panicked := by
  cases op <;> simp only [execInstr] <;>
    first
      | exact absurd rfl hne
      | exact Or.inl ⟨_, _, rfl⟩
      | (split <;> first
          | exact Or.inl ⟨_, _, rfl⟩
          | exact Or.inr rfl
          | (split <;> first
              | exact Or.inl ⟨_, _, rfl⟩
              | exact Or.inr rfl))

/-- A panic outcome arises only from the `DIV` arm, with left operand
`i64::MIN` and right operand `-1` on top of the stack. -/
theorem execInstr_panicked_imp (tp : VMState → String → Except TeleportError Unit)
    (op : AeternaOpcode) (vm : VirtualMachine)
    (h : execInstr tp op vm = StepOutcome.panicked) :
    op = AeternaOpcode.DIV ∧ vm.stack.tail.headD 0 = -(2 ^ 63) ∧
      vm.stack.headD 1 = -1 := by
  cases op <;> simp only [execInstr] at h <;>
    first
      | (split at h <;> (try split at h) <;> simp_all)
      | simp_all

theorem execInstr_ne_done (tp : VMState → String → Except TeleportError Unit)
    (op : AeternaOpcode) (vm : VirtualMachine) :
    execInstr tp op vm ≠ StepOutcome.done := by
  intro h
  cases op <;> simp only [execInstr] at h <;>
    first
      | (cases h)
      | (split at h <;> (try split at h) <;> cases h)

theorem execInstr_next_memLen (tp : VMState → String → Except TeleportError Unit)
    (op : AeternaOpcode) (vm vm' : VirtualMachine) (out : List VMOutput)
    (h : execInstr tp op vm = StepOutcome.next vm' out) :
    vm'.memory.length = vm.memory.length := by
  cases op <;> simp only [execInstr] at h <;>
    first
      | (cases h <;> simp [neutralize_entropy_length])
      | (split at h <;> (try split at h) <;> cases h <;> simp)

theorem execInstr_halt_memLen (tp : VMState → String → Except TeleportError Unit)
    (op : AeternaOpcode) (vm vm' : VirtualMachine)
    (h : execInstr tp op vm = StepOutcome.halt vm') :
    vm'.memory.length = vm.memory.length := by
  cases op <;> simp only [execInstr] at h <;>
    first
      | (cases h <;> simp)
      | (split at h <;> (try split at h) <;> cases h <;> simp)

/-! ### Claims about individual instructions and the run loop -/

/-- Claim C5 (amended): `DIV` pops the top value `b` as the right operand;
when `b` is nonzero (and the operands are not the i64 overflow pair
`a = i64::MIN, b = -1`) it then pops the left operand `a` and pushes the
truncated quotient `a ÷ b`, leaving the stack one element shorter; when
`b` is zero it logs an error and pushes 0 WITHOUT popping the left
operand, so the stack length is unchanged and `a` remains beneath the
pushed 0; at `a = i64::MIN, b = -1` Rust's division-overflow check
panics and execution aborts instead of pushing a quotient. -/
theorem claim5_theorem (tp : VMState → String → Except TeleportError Unit)
    (vm : VirtualMachine) (a b : Int) (rest : List Int)
    (hs : vm.stack = b :: a :: rest)
    (hop : vm.program[vm.pc]? = some AeternaOpcode.DIV) :
    (¬(a = -(2 ^ 63) ∧ b = -1) →
      stepVM tp vm = StepOutcome.next
        { vm with pc := vm.pc + 1,
                  stack := if b = 0 then 0 :: a :: rest else Int.tdiv a b :: rest } []) ∧
    (a = -(2 ^ 63) → b = -1 → stepVM tp vm = StepOutcome.panicked) := by
  rw [stepVM_fetch_some tp vm _ hop]
  constructor
  · intro hno
    simp only [execInstr, hs, List.headD_cons, List.tail_cons]
    by_cases hb : b = 0
    · simp [hb]
    · rw [if_neg hb, if_neg hno]
      simp [hb]
  · intro ha hb
    simp only [execInstr, hs, List.headD_cons, List.tail_cons, ha, hb]
    norm_num

/-- Witness for C5: machine with stack `[0, 10]` (top 0, then 10) about to
run `DIV`. -/
theorem claim5_witness :
    stepVM teleportOk ⟨[0, 10], [], [AeternaOpcode.DIV], 0⟩ =
      StepOutcome.next ⟨[0, 10], [], [AeternaOpcode.DIV], 1⟩ [] :=
  (claim5_theorem teleportOk ⟨[0, 10], [], [AeternaOpcode.DIV], 0⟩ 10 0 [] rfl rfl).1
    (by decide)

/-- Claim C5 (counterexample): with left operand 10 below right operand 0,
`DIV` leaves the stack at its original length 2 (`[0, 10]`), not one
element shorter as the claim asserts for the zero-divisor case. -/
theorem claim5_counterexample :
    (runFuel teleportOk 2 ⟨[0, 10], [], [AeternaOpcode.DIV], 0⟩).1.stack = [0, 10] ∧
    ((runFuel teleportOk 2 ⟨[0, 10], [], [AeternaOpcode.DIV], 0⟩).1.stack.length ≠
      ([0, 10] : List Int).length - 1) := by decide

/-- Claim C7: with a non-empty stack, `JUMP_IF addr` pops the top value;
if it is nonzero the program counter becomes `addr`, otherwise it keeps
its normally advanced value `pc + 1` — the tested value is consumed in
both cases and nothing else changes. -/
theorem claim7_theorem (tp : VMState → String → Except TeleportError Unit)
    (vm : VirtualMachine) (v : Int) (rest : List Int) (addr : Nat)
    (hs : vm.stack = v :: rest)
    (hop : vm.program[vm.pc]? = some (AeternaOpcode.JUMP_IF addr)) :
    stepVM tp vm = StepOutcome.next
      { vm with stack := rest, pc := if v ≠ 0 then addr else vm.pc + 1 } [] := by
  rw [stepVM_fetch_some tp vm _ hop]
  simp only [execInstr, hs]
  by_cases hv : v = 0 <;> simp [hv]

/-- Witness for C7: stack `[5]`, `JUMP_IF 0` jumps to address 0 and
consumes the 5. -/
theorem claim7_witness :
    stepVM teleportOk ⟨[5], [], [AeternaOpcode.JUMP_IF 0], 0⟩ =
      StepOutcome.next ⟨[], [], [AeternaOpcode.JUMP_IF 0], 0⟩ [] :=
  claim7_theorem teleportOk ⟨[5], [], [AeternaOpcode.JUMP_IF 0], 0⟩ 5 [] 0 rfl rfl

/-- Claim C9: with an empty stack, `JUMP_IF addr` is a silent no-op
(`if let Some(val) = pop` fails): nothing is popped, no default is
substituted, no jump happens, and execution continues at the next
instruction — only the program counter advances by 1. -/
theorem claim9_theorem (tp : VMState → String → Except TeleportError Unit)
    (vm : VirtualMachine) (addr : Nat)
    (hs : vm.stack = [])
    (hop : vm.program[vm.pc]? = some (AeternaOpcode.JUMP_IF addr)) :
    stepVM tp vm = StepOutcome.next { vm with pc := vm.pc + 1 } [] := by
  rw [stepVM_fetch_some tp vm _ hop]
  simp only [execInstr, hs]

/-- Witness for C9: empty stack, `JUMP_IF 3` only advances the pc. -/
theorem claim9_witness :
    stepVM teleportOk ⟨[], [], [AeternaOpcode.JUMP_IF 3], 0⟩ =
      StepOutcome.next ⟨[], [], [AeternaOpcode.JUMP_IF 3], 1⟩ [] :=
  claim9_theorem teleportOk ⟨[], [], [AeternaOpcode.JUMP_IF 3], 0⟩ 3 rfl rfl

/-- Claim C6 (counterexample): the program
`[LOAD i64::MIN, LOAD -1, DIV, HALT]` stops with a division-overflow
panic, not by fetching `HALT` or exhausting the instruction sequence —
refuting the original claim that no instruction panics and execution
stops only at `HALT` or the end of the program. -/
theorem claim6_counterexample :
    (runFuel teleportOk 5
      ⟨[], [], [AeternaOpcode.LOAD (-(2 ^ 63)), AeternaOpcode.LOAD (-1),
                AeternaOpcode.DIV, AeternaOpcode.HALT], 0⟩).2.2 =
      StopReason.panicked ∧
    StopReason.panicked ≠ StopReason.halted ∧
    StopReason.panicked ≠ StopReason.endOfProgram := by
  decide

/-- Claim C6 (amended): the run loop is insensitive to the teleport
outcome (a `teleport_vm_to_host` failure during `REQUEST_HOST` never
changes, let alone stops, execution), the loop yields `done` exactly when
the program counter has reached the end of the instruction sequence, a
`halt` arises only from fetching a `HALT` instruction, and every fetched
non-`HALT` instruction either continues execution or aborts — the sole
abort path being `DIV`'s i64 division-overflow panic, which occurs only
with left operand `i64::MIN` and right operand `-1`. -/
theorem claim6_theorem (tp tp' : VMState → String → Except TeleportError Unit)
    (fuel : Nat) (vm : VirtualMachine) :
    runFuel tp fuel vm = runFuel tp' fuel vm ∧
    (stepVM tp vm = StepOutcome.done ↔ vm.program.length ≤ vm.pc) ∧
    (∀ vm', stepVM tp vm = StepOutcome.halt vm' →
      vm.program[vm.pc]? = some AeternaOpcode.HALT) ∧
    (∀ op, vm.program[vm.pc]? = some op → op ≠ AeternaOpcode.HALT →
      (∃ vm' out, stepVM tp vm = StepOutcome.next vm' out) ∨
        stepVM tp vm = StepOutcome.panicked) ∧
    (stepVM tp vm = StepOutcome.panicked →
      vm.program[vm.pc]? = some AeternaOpcode.DIV ∧
      vm.stack.tail.headD 0 = -(2 ^ 63) ∧ vm.stack.headD 1 = -1) := by
  refine ⟨runFuel_tp_irrel tp tp' fuel vm, ?_, ?_, ?_, ?_⟩
  · constructor
    · intro hd
      by_contra hlt
      push_neg at hlt
      have hf : ∃ op, vm.program[vm.pc]? = some op := by
        have : vm.pc < vm.program.length := hlt
        exact ⟨vm.program[vm.pc], List.getElem?_eq_getElem this⟩
      obtain ⟨op, hf⟩ := hf
      rw [stepVM_fetch_some tp vm op hf] at hd
      exact execInstr_ne_done tp op _ hd
    · intro hle
      exact stepVM_fetch_none tp vm (List.getElem?_eq_none hle)
  · intro vm' hh
    cases hf : vm.program[vm.pc]? with
    | none => rw [stepVM_fetch_none tp vm hf] at hh; cases hh
    | some op =>
      rw [stepVM_fetch_some tp vm op hf] at hh
      have hop := (execInstr_halt_iff tp op _).mp ⟨vm', hh⟩
      rw [hop]
  · intro op hf hne
    rw [stepVM_fetch_some tp vm op hf]
    exact execInstr_next_or_panic tp op _ hne
  · intro hp
    cases hf : vm.program[vm.pc]? with
    | none => rw [stepVM_fetch_none tp vm hf] at hp; cases hp
    | some op =>
      rw [stepVM_fetch_some tp vm op hf] at hp
      obtain ⟨hdiv, ha, hb⟩ := execInstr_panicked_imp tp op _ hp
      exact ⟨by rw [hdiv], ha, hb⟩

/-- Witness for C6: a run over `[REQUEST_HOST, HALT]` is identical under a
succeeding and a failing teleport; fetching `HALT` is witnessed on the
one-instruction `HALT` program; `LOAD 1` (a non-`HALT` instruction)
steps to a continue-or-panic outcome; and a machine whose step panicked
(stack `[-1, i64::MIN]` at a `DIV`) exhibits exactly the overflow pair. -/
theorem claim6_witness :
    (runFuel teleportOk 3 ⟨[], [], [AeternaOpcode.REQUEST_HOST, AeternaOpcode.HALT], 0⟩ =
      runFuel teleportFail 3 ⟨[], [], [AeternaOpcode.REQUEST_HOST, AeternaOpcode.HALT], 0⟩) ∧
    (([AeternaOpcode.HALT] : List AeternaOpcode)[0]? = some AeternaOpcode.HALT) ∧
    ((∃ vm' out, stepVM teleportOk ⟨[], [], [AeternaOpcode.LOAD 1, AeternaOpcode.HALT], 0⟩ =
        StepOutcome.next vm' out) ∨
      stepVM teleportOk ⟨[], [], [AeternaOpcode.LOAD 1, AeternaOpcode.HALT], 0⟩ =
        StepOutcome.panicked) ∧
    (([AeternaOpcode.DIV] : List AeternaOpcode)[0]? = some AeternaOpcode.DIV ∧
      ([(-1 : Int), -(2 ^ 63)] : List Int).tail.headD 0 = -(2 ^ 63) ∧
      ([(-1 : Int), -(2 ^ 63)] : List Int).headD 1 = -1) :=
  ⟨(claim6_theorem teleportOk teleportFail 3
      ⟨[], [], [AeternaOpcode.REQUEST_HOST, AeternaOpcode.HALT], 0⟩).1,
   (claim6_theorem teleportOk teleportFail 0 ⟨[], [], [AeternaOpcode.HALT], 0⟩).2.2.1
      ⟨[], [], [AeternaOpcode.HALT], 1⟩ (by decide),
   (claim6_theorem teleportOk teleportFail 0
      ⟨[], [], [AeternaOpcode.LOAD 1, AeternaOpcode.HALT], 0⟩).2.2.2.1
      (AeternaOpcode.LOAD 1) (by decide) (by decide),
   (claim6_theorem teleportOk teleportFail 0
      ⟨[-1, -(2 ^ 63)], [], [AeternaOpcode.DIV], 0⟩).2.2.2.2 (by decide)⟩

/-- Claim C10: a machine built by `VirtualMachine::new` has memory of
length 1024, and the memory length is invariant under every execution of
the run loop (`STORE` writes in place or discards out-of-range writes;
`ENTROPY_RESET` rewrites cells but keeps the length). -/
theorem claim10_theorem :
    (∀ program, (VirtualMachine.new program).memory.length = 1024) ∧
    (∀ (tp : VMState → String → Except TeleportError Unit) (fuel : Nat)
      (vm : VirtualMachine),
      ((runFuel tp fuel vm).1).memory.length = vm.memory.length) := by
  constructor
  · intro program
    show (List.replicate 1024 (0 : Int)).length = 1024
    rw [List.length_replicate]
  · intro tp fuel
    induction fuel with
    | zero => intro vm; rfl
    | succ n ih =>
      intro vm
      simp only [runFuel]
      cases hs : stepVM tp vm with
      | done => rfl
      | panicked => rfl
      | halt vm1 =>
        cases hf : vm.program[vm.pc]? with
        | none => rw [stepVM_fetch_none tp vm hf] at hs; cases hs
        | some op =>
          rw [stepVM_fetch_some tp vm op hf] at hs
          exact execInstr_halt_memLen tp op { vm with pc := vm.pc + 1 } vm1 hs
      | next vm1 out =>
        show (runFuel tp n vm1).1.memory.length = vm.memory.length
        rw [ih vm1]
        cases hf : vm.program[vm.pc]? with
        | none => rw [stepVM_fetch_none tp vm hf] at hs; cases hs
        | some op =>
          rw [stepVM_fetch_some tp vm op hf] at hs
          exact execInstr_next_memLen tp op { vm with pc := vm.pc + 1 } vm1 out hs

/-! ### The end-to-end scenario (spec §8) -/

theorem runFuel_next (tp : VMState → String → Except TeleportError Unit)
    (n : Nat) (vm vm' : VirtualMachine) (out : List VMOutput)
    (h : stepVM tp vm = StepOutcome.next vm' out) :
    runFuel tp (n + 1) vm =
      ((runFuel tp n vm').1, out ++ (runFuel tp n vm').2.1, (runFuel tp n vm').2.2) := by
  simp only [runFuel, h]

theorem runFuel_halt (tp : VMState → String → Except TeleportError Unit)
    (n : Nat) (vm vm' : VirtualMachine)
    (h : stepVM tp vm = StepOutcome.halt vm') :
    runFuel tp (n + 1) vm = (vm', [], StopReason.halted) := by
  simp only [runFuel, h]

/-- The instruction sequence the §8 scenario source compiles to. -/
def scenarioProgram : List AeternaOpcode :=
  [AeternaOpcode.LOAD 108, AeternaOpcode.STORE 0, AeternaOpcode.LOAD 42,
   AeternaOpcode.STORE 1, AeternaOpcode.ENTROPY_RESET, AeternaOpcode.PRINT,
   AeternaOpcode.HALT]

theorem scenario_step0 (m : List Int) :
    stepVM teleportOk ⟨[], m, scenarioProgram, 0⟩ =
      StepOutcome.next ⟨[108], m, scenarioProgram, 1⟩ [] := rfl

theorem scenario_step1 (m : List Int) (h : 0 < m.length) :
    stepVM teleportOk ⟨[108], m, scenarioProgram, 1⟩ =
      StepOutcome.next ⟨[], m.set 0 108, scenarioProgram, 2⟩ [] := by
  rw [stepVM_fetch_some teleportOk ⟨[108], m, scenarioProgram, 1⟩
      (AeternaOpcode.STORE 0) rfl]
  simp only [execInstr]
  rw [if_pos h]

theorem scenario_step2 (m : List Int) :
    stepVM teleportOk ⟨[], m, scenarioProgram, 2⟩ =
      StepOutcome.next ⟨[42], m, scenarioProgram, 3⟩ [] := rfl

theorem scenario_step3 (m : List Int) (h : 1 < m.length) :
    stepVM teleportOk ⟨[42], m, scenarioProgram, 3⟩ =
      StepOutcome.next ⟨[], m.set 1 42, scenarioProgram, 4⟩ [] := by
  rw [stepVM_fetch_some teleportOk ⟨[42], m, scenarioProgram, 3⟩
      (AeternaOpcode.STORE 1) rfl]
  simp only [execInstr]
  rw [if_pos h]

theorem scenario_step4 (m : List Int) :
    stepVM teleportOk ⟨[], m, scenarioProgram, 4⟩ =
      StepOutcome.next ⟨[], neutralize_entropy m, scenarioProgram, 5⟩ [] := rfl

theorem scenario_step5 (m : List Int) :
    stepVM teleportOk ⟨[], m, scenarioProgram, 5⟩ =
      StepOutcome.next ⟨[], m, scenarioProgram, 6⟩ [VMOutput.emptyStack] := rfl

theorem scenario_step6 (m : List Int) :
    stepVM teleportOk ⟨[], m, scenarioProgram, 6⟩ =
      StepOutcome.halt ⟨[], m, scenarioProgram, 7⟩ := rfl

/-- Running the scenario program on a fresh machine: memory slot 0 gets 108,
slot 1 gets 42, the entropy reset collapses memory to the total 150 in
slot 0, the `PRINT` fires with an EMPTY stack, and the `HALT` stops the
loop. -/
theorem scenario_run :
    runFuel teleportOk 10 (VirtualMachine.new scenarioProgram) =
      (⟨[], neutralize_entropy (((List.replicate 1024 (0 : Int)).set 0 108).set 1 42),
        scenarioProgram, 7⟩,
       [VMOutput.emptyStack], StopReason.halted) := by
  have hnew : VirtualMachine.new scenarioProgram =
      ⟨[], List.replicate 1024 0, scenarioProgram, 0⟩ := rfl
  rw [hnew,
      show (10 : Nat) = 9 + 1 from rfl,
      runFuel_next teleportOk 9 _ _ _ (scenario_step0 (List.replicate 1024 0)),
      show (9 : Nat) = 8 + 1 from rfl,
      runFuel_next teleportOk 8 _ _ _ (scenario_step1 (List.replicate 1024 0)
        (by rw [List.length_replicate]; norm_num)),
      show (8 : Nat) = 7 + 1 from rfl,
      runFuel_next teleportOk 7 _ _ _ (scenario_step2 ((List.replicate 1024 0).set 0 108)),
      show (7 : Nat) = 6 + 1 from rfl,
      runFuel_next teleportOk 6 _ _ _ (scenario_step3 ((List.replicate 1024 0).set 0 108)
        (by rw [List.length_set, List.length_replicate]; norm_num)),
      show (6 : Nat) = 5 + 1 from rfl,
      runFuel_next teleportOk 5 _ _ _
        (scenario_step4 (((List.replicate 1024 0).set 0 108).set 1 42)),
      show (5 : Nat) = 4 + 1 from rfl,
      runFuel_next teleportOk 4 _ _ _
        (scenario_step5 (neutralize_entropy (((List.replicate 1024 0).set 0 108).set 1 42))),
      show (4 : Nat) = 3 + 1 from rfl,
      runFuel_halt teleportOk 3 _ _
        (scenario_step6 (neutralize_entropy (((List.replicate 1024 0).set 0 108).set 1 42)))]
  rfl

set_option maxRecDepth 2048 in
theorem compile_scenario :
    aeterna_node.SoulCompiler.compile
      "MANIFEST 108 ANCHOR 0 MANIFEST 42 ANCHOR 1 BECOME VOID ECHO" = scenarioProgram := by
  decide

theorem scenario_memory_getD :
    (neutralize_entropy (((List.replicate 1024 (0 : Int)).set 0 108).set 1 42)).getD 0 0 =
      150 := by
  have hM : ((List.replicate 1024 (0 : Int)).set 0 108).set 1 42 =
      108 :: 42 :: List.replicate 1022 0 := rfl
  have hlen : (108 :: 42 :: List.replicate 1022 (0 : Int)).length = 1024 := by
    rw [List.length_cons, List.length_cons, List.length_replicate]
  have hsum : (108 :: 42 :: List.replicate 1022 (0 : Int)).sum = 150 := by
    rw [List.sum_cons, List.sum_cons, sum_replicate_zero]
    norm_num
  rw [hM, neutralize_entropy_eq, hlen, hsum,
      wrapI64_eq_self 150 (by norm_num) (by norm_num),
      if_neg (by norm_num : (1024 : Nat) ≠ 0),
      show (List.replicate 1024 (0 : Int)).set 0 150 = 150 :: List.replicate 1023 0 from rfl]
  rfl

/-- Claim C1 (counterexample): running the compiled §8 scenario program, the
`PRINT` instruction does NOT output the value 150 — the stack is empty at
that point (both `STORE`s consumed the loaded values and `ENTROPY_RESET`
touches only memory), so the only `PRINT` output event is the
empty-stack warning. -/
theorem claim1_counterexample :
    (runFuel teleportOk 10 (VirtualMachine.new
        (aeterna_node.SoulCompiler.compile
          "MANIFEST 108 ANCHOR 0 MANIFEST 42 ANCHOR 1 BECOME VOID ECHO"))).2.1 =
      [VMOutput.emptyStack] ∧
    VMOutput.value 150 ∉
      (runFuel teleportOk 10 (VirtualMachine.new
        (aeterna_node.SoulCompiler.compile
          "MANIFEST 108 ANCHOR 0 MANIFEST 42 ANCHOR 1 BECOME VOID ECHO"))).2.1 := by
  rw [compile_scenario, scenario_run]
  exact ⟨rfl, by simp⟩

/-- Claim C1 (amended): the scenario source compiles to exactly
`LOAD 108, STORE 0, LOAD 42, STORE 1, ENTROPY_RESET, PRINT, HALT`, and
running it on a fresh machine halts with the post-reset total 150 in
memory slot 0 and an empty stack; `PRINT` therefore reports an empty
stack instead of printing 150 (the 150 lives in memory, which `PRINT`
does not inspect). -/
theorem claim1_theorem :
    aeterna_node.SoulCompiler.compile
        "MANIFEST 108 ANCHOR 0 MANIFEST 42 ANCHOR 1 BECOME VOID ECHO" = scenarioProgram ∧
    runFuel teleportOk 10 (VirtualMachine.new
        (aeterna_node.SoulCompiler.compile
          "MANIFEST 108 ANCHOR 0 MANIFEST 42 ANCHOR 1 BECOME VOID ECHO")) =
      (⟨[], neutralize_entropy (((List.replicate 1024 (0 : Int)).set 0 108).set 1 42),
        scenarioProgram, 7⟩, [VMOutput.emptyStack], StopReason.halted) ∧
    (neutralize_entropy (((List.replicate 1024 (0 : Int)).set 0 108).set 1 42)).getD 0 0 =
      150 :=
  ⟨compile_scenario, by rw [compile_scenario]; exact scenario_run, scenario_memory_getD⟩
